import Mathlib

/-!
Verification of the workflow-automation core of `argocd_cli`.

The Python sources under `src/argocd_cli/` are shallowly embedded:
pure dictionary-building code becomes functions over an explicit YAML
document tree, remote API calls become explicit `Except`-valued oracles
passed in as parameters, and raised exceptions become `Except.error`
values.  Each definition is a direct translation of the function of the
same (or clearly indicated) name in the source.
-/

set_option maxRecDepth 40000

/- ## YAML document model

`TemplateGenerator` builds a Python dict and serializes it with
`yaml.dump`; `TemplateGenerator._validate_yaml` re-parses the result with
`yaml.safe_load`.  We model a document as a tree of scalars, sequences
and mappings, and model serialization at the level of a token stream:
`dumpYaml` is the serializer and `parseVal` a recursive-descent parser
that can reject malformed streams. -/

mutual

inductive Yaml where
  | str : String → Yaml
  | int : Int → Yaml
  | arr : YamlSeq → Yaml
  | map : YamlMap → Yaml

inductive YamlSeq where
  | nil : YamlSeq
  | cons : Yaml → YamlSeq → YamlSeq

inductive YamlMap where
  | mnil : YamlMap
  | mcons : String → Yaml → YamlMap → YamlMap

end

/-- Build a `YamlSeq` from a list literal. -/
def yseq : List Yaml → YamlSeq
  | [] => .nil
  | x :: xs => .cons x (yseq xs)

/-- Build a `YamlMap` from an association-list literal. -/
def ymapOf : List (String × Yaml) → YamlMap
  | [] => .mnil
  | (k, v) :: rest => .mcons k v (ymapOf rest)

/-- Sequence node from a list literal. -/
def yarr (l : List Yaml) : Yaml := .arr (yseq l)

/-- Mapping node from an association-list literal. -/
def ymap (l : List (String × Yaml)) : Yaml := .map (ymapOf l)

/-- Tokens of the serialized form of a document. -/
inductive Tok where
  | seqStart | seqEnd | mapStart | mapEnd | item
  | scalarStr : String → Tok
  | scalarInt : Int → Tok
  | key : String → Tok

mutual

def dumpYaml : Yaml → List Tok
  | .str s => [.scalarStr s]
  | .int n => [.scalarInt n]
  | .arr xs => Tok.seqStart :: (dumpSeq xs ++ [Tok.seqEnd])
  | .map kvs => Tok.mapStart :: (dumpMap kvs ++ [Tok.mapEnd])

def dumpSeq : YamlSeq → List Tok
  | .nil => []
  | .cons x xs => Tok.item :: (dumpYaml x ++ dumpSeq xs)

def dumpMap : YamlMap → List Tok
  | .mnil => []
  | .mcons k v rest => Tok.key k :: (dumpYaml v ++ dumpMap rest)

end

mutual

def ysize : Yaml → Nat
  | .str _ => 1
  | .int _ => 1
  | .arr xs => 1 + seqSize xs
  | .map kvs => 1 + mapSize kvs

def seqSize : YamlSeq → Nat
  | .nil => 1
  | .cons x xs => ysize x + seqSize xs

def mapSize : YamlMap → Nat
  | .mnil => 1
  | .mcons _ v rest => 1 + ysize v + mapSize rest

end

mutual

def parseVal : Nat → List Tok → Except String (Yaml × List Tok)
  | fuel + 1, toks =>
    match toks with
    | Tok.scalarStr s :: rest => .ok (.str s, rest)
    | Tok.scalarInt n :: rest => .ok (.int n, rest)
    | Tok.seqStart :: rest =>
      match parseSeqItems fuel rest with
      | .ok (xs, rest') => .ok (.arr xs, rest')
      | .error e => .error e
    | Tok.mapStart :: rest =>
      match parseMapItems fuel rest with
      | .ok (kvs, rest') => .ok (.map kvs, rest')
      | .error e => .error e
    | _ => .error "expected a value"
  | 0, _ => .error "out of fuel"

def parseSeqItems : Nat → List Tok → Except String (YamlSeq × List Tok)
  | fuel + 1, toks =>
    match toks with
    | Tok.seqEnd :: rest => .ok (.nil, rest)
    | Tok.item :: rest =>
      match parseVal fuel rest with
      | .ok (x, rest') =>
        match parseSeqItems fuel rest' with
        | .ok (xs, rest'') => .ok (.cons x xs, rest'')
        | .error e => .error e
      | .error e => .error e
    | _ => .error "expected a sequence item"
  | 0, _ => .error "out of fuel"

def parseMapItems : Nat → List Tok → Except String (YamlMap × List Tok)
  | fuel + 1, toks =>
    match toks with
    | Tok.mapEnd :: rest => .ok (.mnil, rest)
    | Tok.key k :: rest =>
      match parseVal fuel rest with
      | .ok (v, rest') =>
        match parseMapItems fuel rest' with
        | .ok (kvs, rest'') => .ok (.mcons k v kvs, rest'')
        | .error e => .error e
      | .error e => .error e
    | _ => .error "expected a mapping key"
  | 0, _ => .error "out of fuel"

end

/-- Model of `yaml.safe_load`: parse the token stream, requiring it to be
consumed entirely. -/
def yaml_safe_load (toks : List Tok) : Except String Yaml :=
  match parseVal (toks.length + 1) toks with
  | .ok (v, []) => .ok v
  | .ok (_, _ :: _) => .error "trailing tokens"
  | .error e => .error e
/-- The `template` dict literal built by `TemplateGenerator.generate_application_template` (src/argocd_cli/template_generator.py); `ns` is `self.namespace`. -/
def applicationTemplateDoc (ns : String) : Yaml :=
  ymap [
    ("apiVersion", Yaml.str "argoproj.io/v1alpha1"),
    ("kind", Yaml.str "WorkflowTemplate"),
    ("metadata", ymap [
      ("name", Yaml.str "create-argocd-application"),
      ("namespace", Yaml.str ns)]),
    ("spec", ymap [
      ("serviceAccountName", Yaml.str "argo-workflow-sa"),
      ("entrypoint", Yaml.str "create-application"),
      ("arguments", ymap [
        ("parameters", yarr [
          ymap [
            ("name", Yaml.str "app_name")],
          ymap [
            ("name", Yaml.str "namespace")],
          ymap [
            ("name", Yaml.str "repo_url")],
          ymap [
            ("name", Yaml.str "chart_path")],
          ymap [
            ("name", Yaml.str "destination_cluster"),
            ("value", Yaml.str "https://kubernetes.default.svc")],
          ymap [
            ("name", Yaml.str "destination_namespace")],
          ymap [
            ("name", Yaml.str "values_file"),
            ("value", Yaml.str "")],
          ymap [
            ("name", Yaml.str "sync_policy_automated"),
            ("value", Yaml.str "false")],
          ymap [
            ("name", Yaml.str "sync_policy_self_heal"),
            ("value", Yaml.str "false")],
          ymap [
            ("name", Yaml.str "sync_policy_prune"),
            ("value", Yaml.str "false")]])]),
      ("templates", yarr [
        ymap [
          ("name", Yaml.str "create-application"),
          ("steps", yarr [
            yarr [
              ymap [
                ("name", Yaml.str "validate-inputs"),
                ("template", Yaml.str "validate-inputs")]],
            yarr [
              ymap [
                ("name", Yaml.str "create-namespace"),
                ("template", Yaml.str "create-namespace")]],
            yarr [
              ymap [
                ("name", Yaml.str "generate-manifest"),
                ("template", Yaml.str "generate-manifest")]],
            yarr [
              ymap [
                ("name", Yaml.str "apply-application"),
                ("template", Yaml.str "apply-application")]],
            yarr [
              ymap [
                ("name", Yaml.str "verify-creation"),
                ("template", Yaml.str "verify-creation")]]])],
        ymap [
          ("name", Yaml.str "validate-inputs"),
          ("script", ymap [
            ("image", Yaml.str "alpine:3.18"),
            ("command", yarr [
              Yaml.str "sh"]),
            ("source", Yaml.str "\nif [ -z \"\x7b\x7bworkflow.parameters.app_name\x7d\x7d\" ]; then\n  echo \"Error: app_name is required\"\n  exit 1\nfi\nif [ -z \"\x7b\x7bworkflow.parameters.namespace\x7d\x7d\" ]; then\n  echo \"Error: namespace is required\"\n  exit 1\nfi\nif [ -z \"\x7b\x7bworkflow.parameters.repo_url\x7d\x7d\" ]; then\n  echo \"Error: repo_url is required\"\n  exit 1\nfi\nif [ -z \"\x7b\x7bworkflow.parameters.chart_path\x7d\x7d\" ]; then\n  echo \"Error: chart_path is required\"\n  exit 1\nfi\nif [ -z \"\x7b\x7bworkflow.parameters.destination_namespace\x7d\x7d\" ]; then\n  echo \"Error: destination_namespace is required\"\n  exit 1\nfi\necho \"All required inputs validated successfully\"\n")]),
          ("retryStrategy", ymap [
            ("limit", Yaml.str "2")])],
        ymap [
          ("name", Yaml.str "create-namespace"),
          ("script", ymap [
            ("image", Yaml.str "bitnami/kubectl:latest"),
            ("command", yarr [
              Yaml.str "sh"]),
            ("source", Yaml.str "\nkubectl create namespace \x7b\x7bworkflow.parameters.namespace\x7d\x7d --dry-run=client -o yaml | kubectl apply -f -\necho \"Namespace \x7b\x7bworkflow.parameters.namespace\x7d\x7d ready\"\n")]),
          ("retryStrategy", ymap [
            ("limit", Yaml.str "2"),
            ("retryPolicy", Yaml.str "OnError")])],
        ymap [
          ("name", Yaml.str "generate-manifest"),
          ("script", ymap [
            ("image", Yaml.str "alpine:3.18"),
            ("command", yarr [
              Yaml.str "sh"]),
            ("source", Yaml.str "\n# Detect if this is a Helm repository or Git repository\nREPO_URL=\"\x7b\x7bworkflow.parameters.repo_url\x7d\x7d\"\nCHART_PATH=\"\x7b\x7bworkflow.parameters.chart_path\x7d\x7d\"\n\n# Check if it\x27s a Helm repository\nif echo \"$REPO_URL\" | grep -qE \"(charts\\.|artifacthub\\.io|chartmuseum)\"; then\n  # Helm repository - use \x27chart\x27 field\n  cat > /tmp/application.yaml <<EOF\napiVersion: argoproj.io/v1alpha1\nkind: Application\nmetadata:\n  name: \x7b\x7bworkflow.parameters.app_name\x7d\x7d\n  namespace: \x7b\x7bworkflow.parameters.namespace\x7d\x7d\nspec:\n  project: default\n  source:\n    repoURL: \x7b\x7bworkflow.parameters.repo_url\x7d\x7d\n    chart: \x7b\x7bworkflow.parameters.chart_path\x7d\x7d\n    targetRevision: \"*\"\n    helm: \x7b\x7d\n  destination:\n    server: \x7b\x7bworkflow.parameters.destination_cluster\x7d\x7d\n    namespace: \x7b\x7bworkflow.parameters.destination_namespace\x7d\x7d\n  syncPolicy:\n    automated:\n      selfHeal: \x7b\x7bworkflow.parameters.sync_policy_self_heal\x7d\x7d\n      prune: \x7b\x7bworkflow.parameters.sync_policy_prune\x7d\x7d\n    syncOptions:\n    - CreateNamespace=true\nEOF\nelse\n  # Git repository - use \x27path\x27 field\n  cat > /tmp/application.yaml <<EOF\napiVersion: argoproj.io/v1alpha1\nkind: Application\nmetadata:\n  name: \x7b\x7bworkflow.parameters.app_name\x7d\x7d\n  namespace: \x7b\x7bworkflow.parameters.namespace\x7d\x7d\nspec:\n  project: default\n  source:\n    repoURL: \x7b\x7bworkflow.parameters.repo_url\x7d\x7d\n    path: \x7b\x7bworkflow.parameters.chart_path\x7d\x7d\n    targetRevision: HEAD\n    helm: \x7b\x7d\n  destination:\n    server: \x7b\x7bworkflow.parameters.destination_cluster\x7d\x7d\n    namespace: \x7b\x7bworkflow.parameters.destination_namespace\x7d\x7d\n  syncPolicy:\n    automated:\n      selfHeal: \x7b\x7bworkflow.parameters.sync_policy_self_heal\x7d\x7d\n      prune: \x7b\x7bworkflow.parameters.sync_policy_prune\x7d\x7d\n    syncOptions:\n    - CreateNamespace=true\nEOF\nfi\n\n# Add valueFiles only if provided\nif [ -n \"\x7b\x7bworkflow.parameters.values_file\x7d\x7d\" ]; then\n  sed -i \x27s/helm: \x7b\x7d/helm:\\n      valueFiles:\\n      - \x7b\x7bworkflow.parameters.values_file\x7d\x7d/\x27 /tmp/application.yaml\nfi\n\nif [ \"\x7b\x7bworkflow.parameters.sync_policy_automated\x7d\x7d\" = \"false\" ]; then\n  sed -i \x27/automated:/,/prune:/d\x27 /tmp/application.yaml\nfi\n\ncat /tmp/application.yaml\n")]),
          ("retryStrategy", ymap [
            ("limit", Yaml.str "2")])],
        ymap [
          ("name", Yaml.str "apply-application"),
          ("script", ymap [
            ("image", Yaml.str "bitnami/kubectl:latest"),
            ("command", yarr [
              Yaml.str "sh"]),
            ("source", Yaml.str "\n# Detect if this is a Helm repository or Git repository\nREPO_URL=\"\x7b\x7bworkflow.parameters.repo_url\x7d\x7d\"\nCHART_PATH=\"\x7b\x7bworkflow.parameters.chart_path\x7d\x7d\"\n\n# Check if it\x27s a Helm repository (contains \x27charts\x27 in domain or common Helm repo patterns)\nif echo \"$REPO_URL\" | grep -qE \"(charts\\.|artifacthub\\.io|chartmuseum)\"; then\n  # Helm repository - use \x27chart\x27 field\n  cat > /tmp/application.yaml <<EOF\napiVersion: argoproj.io/v1alpha1\nkind: Application\nmetadata:\n  name: \x7b\x7bworkflow.parameters.app_name\x7d\x7d\n  namespace: \x7b\x7bworkflow.parameters.namespace\x7d\x7d\nspec:\n  project: default\n  source:\n    repoURL: \x7b\x7bworkflow.parameters.repo_url\x7d\x7d\n    chart: \x7b\x7bworkflow.parameters.chart_path\x7d\x7d\n    targetRevision: \"*\"\n    helm: \x7b\x7d\n  destination:\n    server: \x7b\x7bworkflow.parameters.destination_cluster\x7d\x7d\n    namespace: \x7b\x7bworkflow.parameters.destination_namespace\x7d\x7d\n  syncPolicy:\n    automated:\n      selfHeal: \x7b\x7bworkflow.parameters.sync_policy_self_heal\x7d\x7d\n      prune: \x7b\x7bworkflow.parameters.sync_policy_prune\x7d\x7d\n    syncOptions:\n    - CreateNamespace=true\nEOF\nelse\n  # Git repository - use \x27path\x27 field\n  cat > /tmp/application.yaml <<EOF\napiVersion: argoproj.io/v1alpha1\nkind: Application\nmetadata:\n  name: \x7b\x7bworkflow.parameters.app_name\x7d\x7d\n  namespace: \x7b\x7bworkflow.parameters.namespace\x7d\x7d\nspec:\n  project: default\n  source:\n    repoURL: \x7b\x7bworkflow.parameters.repo_url\x7d\x7d\n    path: \x7b\x7bworkflow.parameters.chart_path\x7d\x7d\n    targetRevision: HEAD\n    helm: \x7b\x7d\n  destination:\n    server: \x7b\x7bworkflow.parameters.destination_cluster\x7d\x7d\n    namespace: \x7b\x7bworkflow.parameters.destination_namespace\x7d\x7d\n  syncPolicy:\n    automated:\n      selfHeal: \x7b\x7bworkflow.parameters.sync_policy_self_heal\x7d\x7d\n      prune: \x7b\x7bworkflow.parameters.sync_policy_prune\x7d\x7d\n    syncOptions:\n    - CreateNamespace=true\nEOF\nfi\n\n# Add valueFiles only if provided\nif [ -n \"\x7b\x7bworkflow.parameters.values_file\x7d\x7d\" ]; then\n  sed -i \x27s/helm: \x7b\x7d/helm:\\n      valueFiles:\\n      - \x7b\x7bworkflow.parameters.values_file\x7d\x7d/\x27 /tmp/application.yaml\nfi\n\nif [ \"\x7b\x7bworkflow.parameters.sync_policy_automated\x7d\x7d\" = \"false\" ]; then\n  sed -i \x27/automated:/,/prune:/d\x27 /tmp/application.yaml\nfi\n\nkubectl apply -f /tmp/application.yaml\necho \"Application \x7b\x7bworkflow.parameters.app_name\x7d\x7d applied successfully\"\n")]),
          ("retryStrategy", ymap [
            ("limit", Yaml.str "3"),
            ("retryPolicy", Yaml.str "OnError"),
            ("backoff", ymap [
              ("duration", Yaml.str "5s"),
              ("factor", Yaml.int 2),
              ("maxDuration", Yaml.str "1m")])])],
        ymap [
          ("name", Yaml.str "verify-creation"),
          ("script", ymap [
            ("image", Yaml.str "bitnami/kubectl:latest"),
            ("command", yarr [
              Yaml.str "sh"]),
            ("source", Yaml.str "\nfor i in 1 2 3 4 5; do\n  if kubectl get application \x7b\x7bworkflow.parameters.app_name\x7d\x7d -n \x7b\x7bworkflow.parameters.namespace\x7d\x7d > /dev/null 2>&1; then\n    echo \"Application \x7b\x7bworkflow.parameters.app_name\x7d\x7d verified successfully\"\n    exit 0\n  fi\n  echo \"Waiting for application to be created... (attempt $i/5)\"\n  sleep 5\ndone\necho \"Error: Application not found after verification\"\nexit 1\n")]),
          ("retryStrategy", ymap [
            ("limit", Yaml.str "2")])]])])]

/-- The `template` dict literal built by `TemplateGenerator.generate_applicationset_template` (src/argocd_cli/template_generator.py); `ns` is `self.namespace`. -/
def applicationsetTemplateDoc (ns : String) : Yaml :=
  ymap [
    ("apiVersion", Yaml.str "argoproj.io/v1alpha1"),
    ("kind", Yaml.str "WorkflowTemplate"),
    ("metadata", ymap [
      ("name", Yaml.str "create-argocd-applicationset"),
      ("namespace", Yaml.str ns)]),
    ("spec", ymap [
      ("serviceAccountName", Yaml.str "argo-workflow-sa"),
      ("entrypoint", Yaml.str "create-applicationset"),
      ("arguments", ymap [
        ("parameters", yarr [
          ymap [
            ("name", Yaml.str "appset_name")],
          ymap [
            ("name", Yaml.str "repo_url")],
          ymap [
            ("name", Yaml.str "chart_path")],
          ymap [
            ("name", Yaml.str "generator_type"),
            ("value", Yaml.str "list")],
          ymap [
            ("name", Yaml.str "environments")],
          ymap [
            ("name", Yaml.str "sync_policy_automated"),
            ("value", Yaml.str "false")],
          ymap [
            ("name", Yaml.str "sync_policy_self_heal"),
            ("value", Yaml.str "false")],
          ymap [
            ("name", Yaml.str "sync_policy_prune"),
            ("value", Yaml.str "false")]])]),
      ("templates", yarr [
        ymap [
          ("name", Yaml.str "create-applicationset"),
          ("steps", yarr [
            yarr [
              ymap [
                ("name", Yaml.str "validate-inputs"),
                ("template", Yaml.str "validate-inputs")]],
            yarr [
              ymap [
                ("name", Yaml.str "validate-environments"),
                ("template", Yaml.str "validate-environments")]],
            yarr [
              ymap [
                ("name", Yaml.str "generate-manifest"),
                ("template", Yaml.str "generate-manifest")]],
            yarr [
              ymap [
                ("name", Yaml.str "apply-applicationset"),
                ("template", Yaml.str "apply-applicationset")]]])],
        ymap [
          ("name", Yaml.str "validate-inputs"),
          ("script", ymap [
            ("image", Yaml.str "alpine:3.18"),
            ("command", yarr [
              Yaml.str "sh"]),
            ("source", Yaml.str "\nif [ -z \"\x7b\x7bworkflow.parameters.appset_name\x7d\x7d\" ]; then\n  echo \"Error: appset_name is required\"\n  exit 1\nfi\nif [ -z \"\x7b\x7bworkflow.parameters.repo_url\x7d\x7d\" ]; then\n  echo \"Error: repo_url is required\"\n  exit 1\nfi\nif [ -z \"\x7b\x7bworkflow.parameters.chart_path\x7d\x7d\" ]; then\n  echo \"Error: chart_path is required\"\n  exit 1\nfi\nif [ -z \"\x7b\x7bworkflow.parameters.environments\x7d\x7d\" ]; then\n  echo \"Error: environments is required\"\n  exit 1\nfi\nif [ \"\x7b\x7bworkflow.parameters.generator_type\x7d\x7d\" != \"list\" ] && [ \"\x7b\x7bworkflow.parameters.generator_type\x7d\x7d\" != \"git\" ]; then\n  echo \"Error: generator_type must be \x27list\x27 or \x27git\x27\"\n  exit 1\nfi\necho \"All required inputs validated successfully\"\n")]),
          ("retryStrategy", ymap [
            ("limit", Yaml.str "2")])],
        ymap [
          ("name", Yaml.str "validate-environments"),
          ("script", ymap [
            ("image", Yaml.str "alpine:3.18"),
            ("command", yarr [
              Yaml.str "sh"]),
            ("source", Yaml.str "\napk add --no-cache jq\n\necho \"\x7b\x7bworkflow.parameters.environments\x7d\x7d\" | jq -e \x27.\x27 > /dev/null 2>&1\nif [ $? -ne 0 ]; then\n  echo \"Error: environments must be valid JSON\"\n  exit 1\nfi\n\nenv_count=$(echo \"\x7b\x7bworkflow.parameters.environments\x7d\x7d\" | jq \x27length\x27)\nif [ \"$env_count\" -eq 0 ]; then\n  echo \"Error: at least one environment is required\"\n  exit 1\nfi\n\necho \"\x7b\x7bworkflow.parameters.environments\x7d\x7d\" | jq -c \x27.[]\x27 | while read env; do\n  name=$(echo \"$env\" | jq -r \x27.name\x27)\n  cluster=$(echo \"$env\" | jq -r \x27.cluster_url\x27)\n  namespace=$(echo \"$env\" | jq -r \x27.namespace\x27)\n  \n  if [ -z \"$name\" ] || [ \"$name\" = \"null\" ]; then\n    echo \"Error: environment name is required\"\n    exit 1\n  fi\n  if [ -z \"$cluster\" ] || [ \"$cluster\" = \"null\" ]; then\n    echo \"Error: cluster_url is required for environment $name\"\n    exit 1\n  fi\n  if [ -z \"$namespace\" ] || [ \"$namespace\" = \"null\" ]; then\n    echo \"Error: namespace is required for environment $name\"\n    exit 1\n  fi\n  \n  echo \"Environment $name validated successfully\"\ndone\n\necho \"All environments validated successfully\"\n")]),
          ("retryStrategy", ymap [
            ("limit", Yaml.str "2")])],
        ymap [
          ("name", Yaml.str "generate-manifest"),
          ("script", ymap [
            ("image", Yaml.str "alpine:3.18"),
            ("command", yarr [
              Yaml.str "sh"]),
            ("source", Yaml.str "\napk add --no-cache jq\n\ncat > /tmp/applicationset.yaml <<\x27EOF\x27\napiVersion: argoproj.io/v1alpha1\nkind: ApplicationSet\nmetadata:\n  name: \x7b\x7bworkflow.parameters.appset_name\x7d\x7d\n  namespace: argocd\nspec:\n  generators:\n  - list:\n      elements: []\n  template:\n    metadata:\n      name: \x27\x7b\x7bworkflow.parameters.appset_name\x7d\x7d-\x7b\x7bname\x7d\x7d\x27\n    spec:\n      project: default\n      source:\n        repoURL: \x7b\x7bworkflow.parameters.repo_url\x7d\x7d\n        path: \x7b\x7bworkflow.parameters.chart_path\x7d\x7d\n        targetRevision: HEAD\n        helm:\n          valueFiles:\n          - \x27\x7b\x7bvalues_file\x7d\x7d\x27\n      destination:\n        server: \x27\x7b\x7bcluster_url\x7d\x7d\x27\n        namespace: \x27\x7b\x7bnamespace\x7d\x7d\x27\n      syncPolicy:\n        automated:\n          selfHeal: \x7b\x7bworkflow.parameters.sync_policy_self_heal\x7d\x7d\n          prune: \x7b\x7bworkflow.parameters.sync_policy_prune\x7d\x7d\n        syncOptions:\n        - CreateNamespace=true\nEOF\n\nif [ \"\x7b\x7bworkflow.parameters.sync_policy_automated\x7d\x7d\" = \"false\" ]; then\n  sed -i \x27/automated:/,/prune:/d\x27 /tmp/applicationset.yaml\nfi\n\n# Generate elements from environments JSON\nelements=$(echo \x27\x7b\x7bworkflow.parameters.environments\x7d\x7d\x27 | jq -c \x27[.[] | \x7bname: .name, cluster_url: .cluster_url, namespace: .namespace, values_file: (.values_file // \"values.yaml\")\x7d]\x27)\n\n# Insert elements into YAML using a temporary file\ntemp_yaml=$(cat /tmp/applicationset.yaml)\necho \"$temp_yaml\" | sed \"s/elements: \\[\\]/elements: $elements/\" > /tmp/applicationset.yaml\n\ncat /tmp/applicationset.yaml\n")]),
          ("retryStrategy", ymap [
            ("limit", Yaml.str "2")])],
        ymap [
          ("name", Yaml.str "apply-applicationset"),
          ("script", ymap [
            ("image", Yaml.str "bitnami/kubectl:latest"),
            ("command", yarr [
              Yaml.str "sh"]),
            ("source", Yaml.str "\napk add --no-cache jq\n\ncat > /tmp/applicationset.yaml <<\x27EOF\x27\napiVersion: argoproj.io/v1alpha1\nkind: ApplicationSet\nmetadata:\n  name: \x7b\x7bworkflow.parameters.appset_name\x7d\x7d\n  namespace: argocd\nspec:\n  generators:\n  - list:\n      elements: []\n  template:\n    metadata:\n      name: \x27\x7b\x7bworkflow.parameters.appset_name\x7d\x7d-\x7b\x7bname\x7d\x7d\x27\n    spec:\n      project: default\n      source:\n        repoURL: \x7b\x7bworkflow.parameters.repo_url\x7d\x7d\n        path: \x7b\x7bworkflow.parameters.chart_path\x7d\x7d\n        targetRevision: HEAD\n        helm:\n          valueFiles:\n          - \x27\x7b\x7bvalues_file\x7d\x7d\x27\n      destination:\n        server: \x27\x7b\x7bcluster_url\x7d\x7d\x27\n        namespace: \x27\x7b\x7bnamespace\x7d\x7d\x27\n      syncPolicy:\n        automated:\n          selfHeal: \x7b\x7bworkflow.parameters.sync_policy_self_heal\x7d\x7d\n          prune: \x7b\x7bworkflow.parameters.sync_policy_prune\x7d\x7d\n        syncOptions:\n        - CreateNamespace=true\nEOF\n\nif [ \"\x7b\x7bworkflow.parameters.sync_policy_automated\x7d\x7d\" = \"false\" ]; then\n  sed -i \x27/automated:/,/prune:/d\x27 /tmp/applicationset.yaml\nfi\n\n# Generate elements from environments JSON\nelements=$(echo \x27\x7b\x7bworkflow.parameters.environments\x7d\x7d\x27 | jq -c \x27[.[] | \x7bname: .name, cluster_url: .cluster_url, namespace: .namespace, values_file: (.values_file // \"values.yaml\")\x7d]\x27)\n\n# Insert elements into YAML\ntemp_yaml=$(cat /tmp/applicationset.yaml)\necho \"$temp_yaml\" | sed \"s/elements: \\[\\]/elements: $elements/\" > /tmp/applicationset.yaml\n\nkubectl apply -f /tmp/applicationset.yaml\necho \"ApplicationSet \x7b\x7bworkflow.parameters.appset_name\x7d\x7d applied successfully\"\n")]),
          ("retryStrategy", ymap [
            ("limit", Yaml.str "3"),
            ("retryPolicy", Yaml.str "OnError"),
            ("backoff", ymap [
              ("duration", Yaml.str "5s"),
              ("factor", Yaml.int 2),
              ("maxDuration", Yaml.str "1m")])])]])])]

/-- The `template` dict literal built by `TemplateGenerator.generate_infrastructure_template` (src/argocd_cli/template_generator.py); `ns` is `self.namespace`. -/
def infrastructureTemplateDoc (ns : String) : Yaml :=
  ymap [
    ("apiVersion", Yaml.str "argoproj.io/v1alpha1"),
    ("kind", Yaml.str "WorkflowTemplate"),
    ("metadata", ymap [
      ("name", Yaml.str "provision-infrastructure"),
      ("namespace", Yaml.str ns)]),
    ("spec", ymap [
      ("serviceAccountName", Yaml.str "argo-workflow-sa"),
      ("entrypoint", Yaml.str "provision-infrastructure"),
      ("arguments", ymap [
        ("parameters", yarr [
          ymap [
            ("name", Yaml.str "namespace")],
          ymap [
            ("name", Yaml.str "secrets"),
            ("value", Yaml.str "[]")],
          ymap [
            ("name", Yaml.str "configmaps"),
            ("value", Yaml.str "[]")],
          ymap [
            ("name", Yaml.str "custom_scripts"),
            ("value", Yaml.str "")]])]),
      ("templates", yarr [
        ymap [
          ("name", Yaml.str "provision-infrastructure"),
          ("steps", yarr [
            yarr [
              ymap [
                ("name", Yaml.str "create-namespace"),
                ("template", Yaml.str "create-namespace")]],
            yarr [
              ymap [
                ("name", Yaml.str "create-secrets"),
                ("template", Yaml.str "create-secrets")]],
            yarr [
              ymap [
                ("name", Yaml.str "create-configmaps"),
                ("template", Yaml.str "create-configmaps")]],
            yarr [
              ymap [
                ("name", Yaml.str "execute-custom-scripts"),
                ("template", Yaml.str "execute-custom-scripts"),
                ("when", Yaml.str "\x7b\x7bworkflow.parameters.custom_scripts\x7d\x7d != \x27\x27")]]])],
        ymap [
          ("name", Yaml.str "create-namespace"),
          ("script", ymap [
            ("image", Yaml.str "bitnami/kubectl:latest"),
            ("command", yarr [
              Yaml.str "sh"]),
            ("source", Yaml.str "\nif [ -z \"\x7b\x7bworkflow.parameters.namespace\x7d\x7d\" ]; then\n  echo \"Error: namespace is required\"\n  exit 1\nfi\n\nkubectl create namespace \x7b\x7bworkflow.parameters.namespace\x7d\x7d --dry-run=client -o yaml | kubectl apply -f -\necho \"Namespace \x7b\x7bworkflow.parameters.namespace\x7d\x7d created successfully\"\n")]),
          ("retryStrategy", ymap [
            ("limit", Yaml.str "2"),
            ("retryPolicy", Yaml.str "OnError")])],
        ymap [
          ("name", Yaml.str "create-secrets"),
          ("script", ymap [
            ("image", Yaml.str "bitnami/kubectl:latest"),
            ("command", yarr [
              Yaml.str "sh"]),
            ("source", Yaml.str "\napk add --no-cache jq\n\nsecrets=\x27\x7b\x7bworkflow.parameters.secrets\x7d\x7d\x27\n\nif [ \"$secrets\" = \"[]\" ] || [ -z \"$secrets\" ]; then\n  echo \"No secrets to create\"\n  exit 0\nfi\n\necho \"$secrets\" | jq -e \x27.\x27 > /dev/null 2>&1\nif [ $? -ne 0 ]; then\n  echo \"Error: secrets must be valid JSON\"\n  exit 1\nfi\n\necho \"$secrets\" | jq -c \x27.[]\x27 | while read secret; do\n  name=$(echo \"$secret\" | jq -r \x27.name\x27)\n  type=$(echo \"$secret\" | jq -r \x27.type // \"Opaque\"\x27)\n  data=$(echo \"$secret\" | jq -r \x27.data\x27)\n  \n  if [ -z \"$name\" ] || [ \"$name\" = \"null\" ]; then\n    echo \"Error: secret name is required\"\n    exit 1\n  fi\n  \n  echo \"Creating secret: $name\"\n  \n  # Build kubectl command\n  cmd=\"kubectl create secret generic $name -n \x7b\x7bworkflow.parameters.namespace\x7d\x7d --dry-run=client -o yaml\"\n  \n  # Add data fields\n  echo \"$data\" | jq -r \x27to_entries[] | \"--from-literal=\\(.key)=\\(.value)\"\x27 | while read arg; do\n    cmd=\"$cmd $arg\"\n  done\n  \n  eval \"$cmd\" | kubectl apply -f -\n  \n  if [ $? -eq 0 ]; then\n    echo \"Secret $name created successfully\"\n  else\n    echo \"Error creating secret $name\"\n    exit 1\n  fi\ndone\n\necho \"All secrets created successfully\"\n")]),
          ("retryStrategy", ymap [
            ("limit", Yaml.str "2"),
            ("retryPolicy", Yaml.str "OnError")])],
        ymap [
          ("name", Yaml.str "create-configmaps"),
          ("script", ymap [
            ("image", Yaml.str "bitnami/kubectl:latest"),
            ("command", yarr [
              Yaml.str "sh"]),
            ("source", Yaml.str "\napk add --no-cache jq\n\nconfigmaps=\x27\x7b\x7bworkflow.parameters.configmaps\x7d\x7d\x27\n\nif [ \"$configmaps\" = \"[]\" ] || [ -z \"$configmaps\" ]; then\n  echo \"No configmaps to create\"\n  exit 0\nfi\n\necho \"$configmaps\" | jq -e \x27.\x27 > /dev/null 2>&1\nif [ $? -ne 0 ]; then\n  echo \"Error: configmaps must be valid JSON\"\n  exit 1\nfi\n\necho \"$configmaps\" | jq -c \x27.[]\x27 | while read cm; do\n  name=$(echo \"$cm\" | jq -r \x27.name\x27)\n  data=$(echo \"$cm\" | jq -r \x27.data\x27)\n  \n  if [ -z \"$name\" ] || [ \"$name\" = \"null\" ]; then\n    echo \"Error: configmap name is required\"\n    exit 1\n  fi\n  \n  echo \"Creating configmap: $name\"\n  \n  # Build kubectl command\n  cmd=\"kubectl create configmap $name -n \x7b\x7bworkflow.parameters.namespace\x7d\x7d --dry-run=client -o yaml\"\n  \n  # Add data fields\n  echo \"$data\" | jq -r \x27to_entries[] | \"--from-literal=\\(.key)=\\(.value)\"\x27 | while read arg; do\n    cmd=\"$cmd $arg\"\n  done\n  \n  eval \"$cmd\" | kubectl apply -f -\n  \n  if [ $? -eq 0 ]; then\n    echo \"ConfigMap $name created successfully\"\n  else\n    echo \"Error creating configmap $name\"\n    exit 1\n  fi\ndone\n\necho \"All configmaps created successfully\"\n")]),
          ("retryStrategy", ymap [
            ("limit", Yaml.str "2"),
            ("retryPolicy", Yaml.str "OnError")])],
        ymap [
          ("name", Yaml.str "execute-custom-scripts"),
          ("script", ymap [
            ("image", Yaml.str "bitnami/kubectl:latest"),
            ("command", yarr [
              Yaml.str "sh"]),
            ("source", Yaml.str "\nif [ -z \"\x7b\x7bworkflow.parameters.custom_scripts\x7d\x7d\" ]; then\n  echo \"No custom scripts to execute\"\n  exit 0\nfi\n\necho \"Executing custom scripts...\"\necho \"\x7b\x7bworkflow.parameters.custom_scripts\x7d\x7d\" > /tmp/custom_script.sh\nchmod +x /tmp/custom_script.sh\n\n/tmp/custom_script.sh\n\nif [ $? -eq 0 ]; then\n  echo \"Custom scripts executed successfully\"\nelse\n  echo \"Error executing custom scripts\"\n  exit 1\nfi\n")]),
          ("retryStrategy", ymap [
            ("limit", Yaml.str "2"),
            ("retryPolicy", Yaml.str "OnError")])]])])]


/- ## Shared error value

`argocd_cli.exceptions.ValidationError(message, field=None)`: the single
validation failure raised by `Validator.validate_parameters` and
`TemplateGenerator._validate_yaml`. -/

structure ValidationError where
  message : String
  field : Option String
deriving DecidableEq

/-- Model of `TemplateGenerator._validate_yaml`
(src/argocd_cli/template_generator.py): re-parse the serialized document,
raising `ValidationError` when the parse fails. -/
def _validate_yaml (yaml_str : List Tok) : Except ValidationError Bool :=
  match yaml_safe_load yaml_str with
  | .ok _ => .ok true
  | .error e => .error ⟨"Invalid YAML syntax: " ++ e, some "template_yaml"⟩

/-- `TemplateGenerator.generate_application_template`: serialize the
document, validate it, return the serialized form. -/
def generate_application_template (ns : String) : Except ValidationError (List Tok) :=
  let yaml_str := dumpYaml (applicationTemplateDoc ns)
  match _validate_yaml yaml_str with
  | .ok _ => .ok yaml_str
  | .error e => .error e

/-- `TemplateGenerator.generate_applicationset_template`. -/
def generate_applicationset_template (ns : String) : Except ValidationError (List Tok) :=
  let yaml_str := dumpYaml (applicationsetTemplateDoc ns)
  match _validate_yaml yaml_str with
  | .ok _ => .ok yaml_str
  | .error e => .error e

/-- `TemplateGenerator.generate_infrastructure_template`. -/
def generate_infrastructure_template (ns : String) : Except ValidationError (List Tok) :=
  let yaml_str := dumpYaml (infrastructureTemplateDoc ns)
  match _validate_yaml yaml_str with
  | .ok _ => .ok yaml_str
  | .error e => .error e

/-- The three template kinds the generator offers. -/
inductive TemplateKind where
  | application | applicationset | infrastructure

/-- Dispatch to the three document builders. -/
def templateDoc : TemplateKind → String → Yaml
  | .application, ns => applicationTemplateDoc ns
  | .applicationset, ns => applicationsetTemplateDoc ns
  | .infrastructure, ns => infrastructureTemplateDoc ns

/-- Dispatch to the three generator methods. -/
def generate : TemplateKind → String → Except ValidationError (List Tok)
  | .application, ns => generate_application_template ns
  | .applicationset, ns => generate_applicationset_template ns
  | .infrastructure, ns => generate_infrastructure_template ns

/- ## Accessors over generated documents (used to state C3) -/

def YamlMap.find : YamlMap → String → Option Yaml
  | .mnil, _ => none
  | .mcons k v rest, k' => if k == k' then some v else YamlMap.find rest k'

def Yaml.get : Yaml → String → Option Yaml
  | .map m, k => m.find k
  | _, _ => none

def YamlSeq.toList : YamlSeq → List Yaml
  | .nil => []
  | .cons x xs => x :: YamlSeq.toList xs

def Yaml.items : Yaml → List Yaml
  | .arr s => s.toList
  | _ => []

def Yaml.strVal : Yaml → Option String
  | .str s => some s
  | _ => none

/-- The step templates of a generated document: the entries of
`spec.templates` that carry a `script` (the linear-chain entrypoint
template carries `steps` instead and is not itself an execution step). -/
def stepTemplates (doc : Yaml) : List Yaml :=
  match doc.get "spec" with
  | some spec =>
    match spec.get "templates" with
    | some ts => ts.items.filter (fun t => (t.get "script").isSome)
    | none => []
  | none => []

/-- The `script.source` shell text of a step template (empty if absent). -/
def scriptSource (t : Yaml) : String :=
  match (t.get "script").bind (fun s => s.get "source") with
  | some v => v.strVal.getD ""
  | none => ""

def infixIn (pat : List Char) : List Char → Bool
  | [] => pat.isEmpty
  | c :: rest => List.isPrefixOf pat (c :: rest) || infixIn pat rest

/-- A step performs the non-idempotent apply when its script applies a
manifest file it just built (`kubectl apply -f /tmp/...`), as the
`apply-application` / `apply-applicationset` steps do; the
`... --dry-run=client -o yaml | kubectl apply -f -` pattern used by the
namespace/secret/configmap steps is the idempotent upsert form. -/
def callsNonIdempotentApply (src : String) : Bool :=
  infixIn "kubectl apply -f /tmp/".data src.data

/-- A non-empty all-digit string: the serialized form of a natural
number. -/
def isNatString (s : String) : Bool :=
  !s.data.isEmpty && s.data.all (fun c => c.isDigit)

/-- The step carries a `retryStrategy` whose `limit` is a numeric string:
a finite attempt bound. -/
def hasFiniteRetryLimit (t : Yaml) : Bool :=
  match (t.get "retryStrategy").bind (fun r => r.get "limit") with
  | some v =>
    match v.strVal with
    | some s => isNatString s
    | none => false
  | none => false

/-- The step carries `retryStrategy.backoff` with an initial duration, a
factor and a maximum duration: a capped exponential backoff. -/
def hasCappedBackoff (t : Yaml) : Bool :=
  match (t.get "retryStrategy").bind (fun r => r.get "backoff") with
  | some b => (b.get "duration").isSome && (b.get "factor").isSome && (b.get "maxDuration").isSome
  | none => false

/-- Number of step templates each kind generates (non-vacuity check). -/
def numStepTemplates : TemplateKind → Nat
  | .application => 5
  | .applicationset => 4
  | .infrastructure => 4

/- ## ParameterBinder: `Validator.validate_parameters`
(src/argocd_cli/validators.py, lines 100-137).  The `provided` dict is an
association list with the usual first-match lookup. -/

/-- `param in provided` / `provided[param]`. -/
def pyDictGet (provided : List (String × String)) (k : String) : Option String :=
  (provided.find? (fun p => p.1 == k)).map (fun p => p.2)

/-- The whitespace set of Python `str.strip`. -/
def pyWhitespace (c : Char) : Bool :=
  c == ' ' || c == '\t' || c == '\n' || c == '\r' || c == '\x0b' || c == '\x0c'

/-- Python `str.strip()`. -/
def pyStrip (s : String) : String :=
  (((s.data.dropWhile pyWhitespace).reverse.dropWhile pyWhitespace).reverse).asString

/-- Python `str.rstrip()`. -/
def pyRstrip (s : String) : String :=
  ((s.data.reverse.dropWhile pyWhitespace).reverse).asString

/-- Python `sep.join(parts)`. -/
def pyJoin (sep : String) : List String → String
  | [] => ""
  | [x] => x
  | x :: xs => x ++ sep ++ pyJoin sep xs

/-- The collection loop of `validate_parameters`: walk `required` in
order, recording each name missing from `provided` and each name present
but falsy / blank after stripping. -/
def collectParamViolations (provided : List (String × String)) :
    List String → List String × List String
  | [] => ([], [])
  | param :: rest =>
    let acc := collectParamViolations provided rest
    match pyDictGet provided param with
    | none => (param :: acc.1, acc.2)
    | some v =>
      if v == "" || pyStrip v == "" then (acc.1, param :: acc.2) else acc

/-- `Validator.validate_parameters(required, provided)`: returns `True`
or raises one `ValidationError` naming every violation. -/
def validate_parameters (required : List String) (provided : List (String × String)) :
    Except ValidationError Bool :=
  let acc := collectParamViolations provided required
  let missing_params := acc.1
  let empty_params := acc.2
  if missing_params.isEmpty && empty_params.isEmpty then
    .ok true
  else
    let error_parts :=
      (if missing_params.isEmpty then [] else
        ["Missing required parameters: " ++ pyJoin ", " missing_params]) ++
      (if empty_params.isEmpty then [] else
        ["Empty required parameters: " ++ pyJoin ", " empty_params])
    .error ⟨pyJoin ". " error_parts, none⟩

/- ## Workflow client: `WorkflowClient`
(src/argocd_cli/workflow_client.py).  The remote objects fetched from the
Kubernetes API are loosely-typed dicts; each `.get` with a default is an
`Option` field.  API calls are oracles of type `Except ApiException _`,
mirroring `kubernetes.client.rest.ApiException`. -/

/-- `kubernetes.client.rest.ApiException`: the numeric status and reason
of a failed API call. -/
structure ApiException where
  status : Nat
  reason : String
deriving DecidableEq

/-- The raised CLI exceptions relevant to the workflow client
(src/argocd_cli/exceptions.py), collapsed to their identifying data. -/
inductive CliError where
  | workflowNotFound (workflow_name nspace : String)
  | kubernetesAPI (message resource operation : String)
deriving DecidableEq

/-- One entry of the remote `status.nodes` map: every field read via
`node_data.get(...)` in the source. -/
structure RawNode where
  name : Option String
  displayName : Option String
  type : Option String
  phase : Option String
  message : Option String
  startedAt : Option String
  finishedAt : Option String
  id : Option String
deriving DecidableEq

/-- The remote `status` section (`workflow.get("status", {})`). -/
structure RawStatus where
  phase : Option String
  progress : Option String
  startedAt : Option String
  finishedAt : Option String
  message : Option String
  nodes : List (String × RawNode)
deriving DecidableEq

/-- The remote `metadata` section; `nspace` models the `namespace` key
(a Lean keyword). -/
structure RawMetadata where
  name : Option String
  nspace : Option String
deriving DecidableEq

/-- A workflow object as returned by the custom-objects API. -/
structure RawWorkflow where
  metadata : Option RawMetadata
  status : Option RawStatus
deriving DecidableEq

def emptyRawStatus : RawStatus := ⟨none, none, none, none, none, []⟩

def emptyRawMetadata : RawMetadata := ⟨none, none⟩

/-- Decoded timestamp value of `datetime.fromisoformat`. -/
structure PyDateTime where
  year : Nat
  month : Nat
  day : Nat
  hour : Nat
  minute : Nat
  second : Nat
  microsecond : Nat
  tzOffsetMinutes : Option Int
deriving DecidableEq

def digit? (c : Char) : Option Nat :=
  if c.isDigit then some (c.toNat - 48) else none

/-- Parse exactly `n` digits into a number. -/
def parseDigits : Nat → Nat → List Char → Option (Nat × List Char)
  | 0, acc, cs => some (acc, cs)
  | m + 1, acc, cs =>
    match cs with
    | c :: rest =>
      match digit? c with
      | some d => parseDigits m (acc * 10 + d) rest
      | none => none
    | [] => none

def expectChar (c : Char) : List Char → Option (List Char)
  | c' :: rest => if c' == c then some rest else none
  | [] => none

def isLeapYear (y : Nat) : Bool :=
  y % 4 == 0 && (y % 100 != 0 || y % 400 == 0)

def daysInMonth (y m : Nat) : Nat :=
  if m == 2 then (if isLeapYear y then 29 else 28)
  else if m == 4 || m == 6 || m == 9 || m == 11 then 30
  else 31

/-- `.ffffff` / `.fff` fractional seconds (microseconds). -/
def parseFraction (cs : List Char) : Option (Nat × List Char) :=
  match cs with
  | '.' :: rest =>
    (match parseDigits 6 0 rest with
     | some r => some r
     | none =>
       match parseDigits 3 0 rest with
       | some (v, rest') => some (v * 1000, rest')
       | none => none)
  | _ => some (0, cs)

/-- `HH[:MM[:SS[.ffffff]]]` of an ISO time string. -/
def parseTimeOfDay (cs : List Char) : Option (Nat × Nat × Nat × Nat × List Char) := do
  let (h, r) ← parseDigits 2 0 cs
  if 23 < h then none else
  match r with
  | ':' :: r1 => do
    let (mi, r2) ← parseDigits 2 0 r1
    if 59 < mi then none else
    match r2 with
    | ':' :: r3 => do
      let (se, r4) ← parseDigits 2 0 r3
      if 59 < se then none else do
      let (us, r5) ← parseFraction r4
      pure (h, mi, se, us, r5)
    | _ => pure (h, mi, 0, 0, r2)
  | _ => pure (h, 0, 0, 0, r)

/-- Model of `datetime.fromisoformat`: `YYYY-MM-DD` optionally followed
by one separator character, a time of day, and a `±HH:MM` offset.  A
string outside this grammar yields `none` (the raised `ValueError`). -/
def fromisoformat (s : String) : Option PyDateTime := do
  let (y, r0) ← parseDigits 4 0 s.data
  let r1 ← expectChar '-' r0
  let (mo, r2) ← parseDigits 2 0 r1
  let r3 ← expectChar '-' r2
  let (d, r4) ← parseDigits 2 0 r3
  if mo < 1 || 12 < mo then none else
  if d < 1 || daysInMonth y mo < d then none else
  match r4 with
  | [] => some ⟨y, mo, d, 0, 0, 0, 0, none⟩
  | _sep :: tr => do
    let (h, mi, se, us, r5) ← parseTimeOfDay tr
    match r5 with
    | [] => some ⟨y, mo, d, h, mi, se, us, none⟩
    | c :: r6 =>
      if c == '+' || c == '-' then do
        let (th, tmi, _tse, _tus, r7) ← parseTimeOfDay r6
        if r7.isEmpty then
          let total : Int := (th : Int) * 60 + (tmi : Int)
          some ⟨y, mo, d, h, mi, se, us, some (if c == '-' then -total else total)⟩
        else none
      else none

/-- Left-to-right non-overlapping replacement (Python `str.replace`);
each step consumes at least one character, so fuel equal to the input
length is always enough. -/
def pyReplaceAux (pat sub : List Char) : Nat → List Char → List Char
  | 0, l => l
  | _ + 1, [] => []
  | fuel + 1, c :: rest =>
    if !pat.isEmpty && List.isPrefixOf pat (c :: rest) then
      sub ++ pyReplaceAux pat sub fuel (List.drop (pat.length - 1) rest)
    else
      c :: pyReplaceAux pat sub fuel rest

/-- Python `s.replace(pat, sub)`. -/
def pyReplace (s pat sub : String) : String :=
  (pyReplaceAux pat.data sub.data s.data.length s.data).asString

/-- The repeated timestamp pattern of `get_workflow_status`:
`if data.get(k): try: fromisoformat(v.replace("Z", "+00:00")) except: pass`
— a falsy or unparsable value degrades to `none`. -/
def parseOptTimestamp (v : Option String) : Option PyDateTime :=
  match v with
  | some s => if s == "" then none else fromisoformat (pyReplace s "Z" "+00:00")
  | none => none

/-- A decoded node of a status snapshot (`WorkflowNode` dataclass). -/
structure WorkflowNode where
  name : String
  display_name : String
  type : String
  phase : String
  message : String
  started_at : Option PyDateTime
  finished_at : Option PyDateTime
deriving DecidableEq

/-- A decoded status snapshot (`WorkflowStatus` dataclass); `nspace`
models the `namespace` field. -/
structure WorkflowStatus where
  name : String
  nspace : String
  phase : String
  started_at : Option PyDateTime
  finished_at : Option PyDateTime
  progress : String
  message : String
  nodes : List WorkflowNode
deriving DecidableEq

/-- The node-decoding body of the `for node_id, node_data in
status.get("nodes", {}).items()` loop of `get_workflow_status`. -/
def decodeNode (node_id : String) (nd : RawNode) : WorkflowNode :=
  { name := nd.name.getD node_id
    display_name := nd.displayName.getD (nd.name.getD node_id)
    type := nd.type.getD "Unknown"
    phase := nd.phase.getD "Unknown"
    message := nd.message.getD ""
    started_at := parseOptTimestamp nd.startedAt
    finished_at := parseOptTimestamp nd.finishedAt }

/-- `WorkflowClient.get_workflow_status`: the fetched object is passed as
an oracle result; decoding of a fetched object is total. -/
def get_workflow_status (nspace workflow_name : String)
    (fetched : Except ApiException RawWorkflow) : Except CliError WorkflowStatus :=
  match fetched with
  | .error e =>
    if e.status == 404 then .error (.workflowNotFound workflow_name nspace)
    else .error (.kubernetesAPI ("Failed to get workflow status: " ++ e.reason) "Workflow" "get")
  | .ok workflow =>
    let status := workflow.status.getD emptyRawStatus
    let metadata := workflow.metadata.getD emptyRawMetadata
    .ok { name := metadata.name.getD workflow_name
          nspace := metadata.nspace.getD nspace
          phase := status.phase.getD "Unknown"
          started_at := parseOptTimestamp status.startedAt
          finished_at := parseOptTimestamp status.finishedAt
          progress := status.progress.getD "0/0"
          message := status.message.getD ""
          nodes := status.nodes.map (fun p => decodeNode p.1 p.2) }

/- ## LogAggregator: `get_workflow_logs` / `stream_workflow_logs` -/

/-- Target-node selection of `get_workflow_logs`: with a `step` filter,
the nodes whose `displayName` or `name` equals the filter; without one,
the nodes of type `Pod`. -/
def selectLogNodes (nodes : List (String × RawNode)) (step : Option String) :
    List (String × RawNode) :=
  match step with
  | some st => nodes.filter (fun p => p.2.displayName == some st || p.2.name == some st)
  | none => nodes.filter (fun p => p.2.type == some "Pod")

/-- Target-node selection of `stream_workflow_logs`: the filtered branch
is identical, the unfiltered branch additionally requires the phase to be
`Running` or `Pending`. -/
def selectStreamNodes (nodes : List (String × RawNode)) (step : Option String) :
    List (String × RawNode) :=
  match step with
  | some st => nodes.filter (fun p => p.2.displayName == some st || p.2.name == some st)
  | none => nodes.filter (fun p =>
      p.2.type == some "Pod" && (p.2.phase == some "Running" || p.2.phase == some "Pending"))

/-- `pod_name = node_data.get("id", node_id)`. -/
def podNameOf (p : String × RawNode) : String := p.2.id.getD p.1

/-- `display_name = node_data.get("displayName", node_data.get("name", pod_name))`. -/
def displayNameOf (p : String × RawNode) : String :=
  p.2.displayName.getD (p.2.name.getD (podNameOf p))

/-- The per-pod body of the retrieval loop of `get_workflow_logs`: the
lines appended to `logs` for one target node, where `podLogs` is the
`core_api.read_namespaced_pod_log` oracle. -/
def logBlock (podLogs : String → Except ApiException String)
    (p : String × RawNode) : List String :=
  let pod_name := podNameOf p
  let display_name := displayNameOf p
  match podLogs pod_name with
  | .ok pod_logs => ["=== Logs from step: " ++ display_name ++ " ===", pod_logs, ""]
  | .error e =>
    if e.status == 404 then
      ["=== Step " ++ display_name ++ ": Pod not found or not started yet ===", ""]
    else
      ["=== Step " ++ display_name ++ ": Failed to retrieve logs: " ++ e.reason ++ " ===", ""]

/-- `WorkflowClient.get_workflow_logs`. -/
def get_workflow_logs (nspace workflow_name : String)
    (fetched : Except ApiException RawWorkflow)
    (podLogs : String → Except ApiException String)
    (step : Option String) : Except CliError String :=
  match fetched with
  | .error e =>
    if e.status == 404 then .error (.workflowNotFound workflow_name nspace)
    else .error (.kubernetesAPI ("Failed to get workflow logs: " ++ e.reason) "Workflow" "get logs")
  | .ok workflow =>
    let nodes := (workflow.status.getD emptyRawStatus).nodes
    let target_nodes := selectLogNodes nodes step
    let logs := target_nodes.flatMap (logBlock podLogs)
    .ok (if logs.isEmpty then "No logs available" else pyJoin "\n" logs)

/-- The per-pod body of the streaming loop of `stream_workflow_logs`: the
header line is yielded before the read call, so a failed read still
yields the header followed by the labeled placeholder. -/
def streamBlock (podLogStream : String → Except ApiException (List String))
    (p : String × RawNode) : List String :=
  let pod_name := podNameOf p
  let display_name := displayNameOf p
  ("=== Streaming logs from step: " ++ display_name ++ " ===") ::
    (match podLogStream pod_name with
     | .ok ls => ls.map (fun line => pyRstrip line)
     | .error e =>
       if e.status == 404 then
         ["Step " ++ display_name ++ ": Pod not found or not started yet"]
       else
         ["Step " ++ display_name ++ ": Failed to stream logs: " ++ e.reason])

/-- `WorkflowClient.stream_workflow_logs`: the (finite prefix of the)
yielded line sequence. -/
def stream_workflow_logs (_nspace _workflow_name : String)
    (fetched : Except ApiException RawWorkflow)
    (podLogStream : String → Except ApiException (List String))
    (step : Option String) : Except String (List String) :=
  match fetched with
  | .error e => .error ("Failed to stream workflow logs: " ++ e.reason)
  | .ok workflow =>
    let nodes := (workflow.status.getD emptyRawStatus).nodes
    let target_nodes := selectStreamNodes nodes step
    .ok (target_nodes.flatMap (streamBlock podLogStream))

/- ## LifecycleManager: batch deletion and the client-side helper -/

/-- The deletion loop of the CLI `delete` command
(src/argocd_cli/cli.py, lines 1464-1484): each matched workflow is
deleted independently, successes and failures are counted, and both
counts are reported. -/
def deleteBatchLoop (deleteOne : String → Except ApiException Bool)
    (deleted_count failed_count : Nat) : List String → Nat × Nat
  | [] => (deleted_count, failed_count)
  | name :: rest =>
    match deleteOne name with
    | .ok _ => deleteBatchLoop deleteOne (deleted_count + 1) failed_count rest
    | .error _ => deleteBatchLoop deleteOne deleted_count (failed_count + 1) rest

/-- Batch deletion over the resolved workflow-name list, starting from
zero counts. -/
def deleteBatch (deleteOne : String → Except ApiException Bool)
    (workflows_to_delete : List String) : Nat × Nat :=
  deleteBatchLoop deleteOne 0 0 workflows_to_delete

/-- `WorkflowClient.delete_workflows_by_labels`
(src/argocd_cli/workflow_client.py, lines 309-339): deletes each listed
workflow that has a metadata name, swallowing per-item failures; note it
returns only the deleted count.  It has no caller in the repository; the
CLI `delete` command uses its own loop (`deleteBatchLoop`). -/
def delete_workflows_by_labels (deleteOne : String → Except ApiException Bool) :
    List RawWorkflow → Nat
  | [] => 0
  | workflow :: rest =>
    let deleted := delete_workflows_by_labels deleteOne rest
    match (workflow.metadata.getD emptyRawMetadata).name with
    | some workflow_name =>
      match deleteOne workflow_name with
      | .ok _ => deleted + 1
      | .error _ => deleted
    | none => deleted

/- ## StatusTracker: the watch loop of the CLI `status` command -/

/-- The terminal phases tested by the watch loop
(`status.phase in ["Succeeded", "Failed", "Error"]`). -/
def terminalPhases : List String := ["Succeeded", "Failed", "Error"]

/-- The watch loop of `workflow_status` (src/argocd_cli/cli.py, lines
1146-1170): each iteration fetches the snapshot, displays it, and breaks
when its phase is terminal.  `fetchStatus i` is the snapshot the `i`-th
fetch returns; the fuel bounds the otherwise `while True` loop, modelling
the caller's `KeyboardInterrupt` cancellation.  The result is the list of
displayed snapshots. -/
def watchStatuses (fetchStatus : Nat → WorkflowStatus) (i : Nat) : Nat → List WorkflowStatus
  | 0 => []
  | fuel + 1 =>
    let status := fetchStatus i
    if terminalPhases.contains status.phase then [status]
    else status :: watchStatuses fetchStatus (i + 1) fuel

/-- The five-value phase vocabulary of the spec. -/
def specPhases : List String := ["Pending", "Running", "Succeeded", "Failed", "Error"]

/- ## Concrete fixtures used to instantiate the theorems below -/

/-- A node whose `startedAt` is not a timestamp. -/
def c4Node : RawNode :=
  ⟨some "wf-1.step-a", some "step-a", some "Pod", some "Running", some "ok",
   some "not-a-date", some "2021-01-02T03:04:05Z", some "wf-1-pod-123"⟩

/-- A workflow whose only node is `c4Node`. -/
def c4Workflow : RawWorkflow :=
  ⟨some ⟨some "wf-1", some "argo"⟩,
   some ⟨some "Running", some "1/2", none, none, some "", [("node-1", c4Node)]⟩⟩

/-- First pod node of the two-pod log fixture. -/
def c5NodeA : RawNode :=
  ⟨some "wf-2.alpha", some "alpha", some "Pod", some "Running", none, none, none,
   some "pod-alpha"⟩

/-- Second pod node of the two-pod log fixture. -/
def c5NodeB : RawNode :=
  ⟨some "wf-2.beta", some "beta", some "Pod", some "Succeeded", none, none, none,
   some "pod-beta"⟩

/-- A workflow with the two pod nodes above. -/
def c5Workflow : RawWorkflow :=
  ⟨none, some ⟨some "Running", none, none, none, none,
    [("n1", c5NodeA), ("n2", c5NodeB)]⟩⟩

/-- Pod-log oracle: the first pod's lookup raises not-found, the second
succeeds. -/
def c5PodLogs : String → Except ApiException String :=
  fun name => if name == "pod-alpha" then .error ⟨404, "Not Found"⟩ else .ok "beta log line"

/-- Delete oracle whose second target fails. -/
def c6DeleteOne : String → Except ApiException Bool :=
  fun name => if name == "wf-b" then .error ⟨500, "Internal Server Error"⟩ else .ok true

/-- A fetch sequence that reports a terminal phase immediately. -/
def c7Fetch : Nat → WorkflowStatus :=
  fun _ => ⟨"wf-3", "argo", "Succeeded", none, none, "1/1", "", []⟩

/-- A node map whose single node is an aggregate `Steps` unit named
`build`. -/
def c8Nodes : List (String × RawNode) :=
  [("build-id", ⟨some "wf.build", some "build", some "Steps", some "Running",
    none, none, none, none⟩)]

/-- A node map with a single running pod node. -/
def c8PodNodes : List (String × RawNode) :=
  [("p1", ⟨some "wf.main", some "main", some "Pod", some "Running",
    none, none, none, some "pod-p1"⟩)]

/-- A workflow all of whose pod nodes are in a terminal phase. -/
def c9Workflow : RawWorkflow :=
  ⟨none, some ⟨some "Succeeded", none, none, none, none,
    [("t1", ⟨some "wf.done", some "done", some "Pod", some "Succeeded",
      none, none, none, some "pod-done"⟩),
     ("t2", ⟨some "wf", some "wf", some "Steps", some "Succeeded",
      none, none, none, none⟩)]⟩⟩

/-- Streaming oracle for the fixture above. -/
def c9Stream : String → Except ApiException (List String) :=
  fun _ => .ok ["a line"]

/- ## Serializer / parser round trip -/

theorem ysize_pos (v : Yaml) : 1 ≤ ysize v := by
  cases v <;> simp [ysize]

theorem seqSize_pos (xs : YamlSeq) : 1 ≤ seqSize xs := by
  cases xs with
  | nil => simp [seqSize]
  | cons x xs => have := ysize_pos x; simp [seqSize]; omega

theorem mapSize_pos (kvs : YamlMap) : 1 ≤ mapSize kvs := by
  cases kvs with
  | mnil => simp [mapSize]
  | mcons k v rest => simp [mapSize]; omega

/-- With enough fuel, the parser inverts the serializer, leaving any
trailing tokens untouched. -/
theorem parse_dump_ok (fuel : Nat) :
    (∀ v rest, ysize v ≤ fuel → parseVal fuel (dumpYaml v ++ rest) = .ok (v, rest)) ∧
    (∀ xs rest, seqSize xs ≤ fuel →
      parseSeqItems fuel (dumpSeq xs ++ Tok.seqEnd :: rest) = .ok (xs, rest)) ∧
    (∀ kvs rest, mapSize kvs ≤ fuel →
      parseMapItems fuel (dumpMap kvs ++ Tok.mapEnd :: rest) = .ok (kvs, rest)) := by
  induction fuel using Nat.strong_induction_on with
  | _ fuel ih =>
  cases fuel with
  | zero =>
    refine ⟨fun v rest h => absurd h ?_, fun xs rest h => absurd h ?_,
      fun kvs rest h => absurd h ?_⟩
    · have := ysize_pos v; omega
    · have := seqSize_pos xs; omega
    · have := mapSize_pos kvs; omega
  | succ f =>
    have ihf := ih f (Nat.lt_succ_self f)
    refine ⟨?_, ?_, ?_⟩
    · intro v rest h
      cases v with
      | str s => rfl
      | int n => rfl
      | arr xs =>
        have hx : seqSize xs ≤ f := by simp [ysize] at h; omega
        have e := ihf.2.1 xs rest hx
        simp only [dumpYaml, List.cons_append, List.append_assoc, List.singleton_append,
          List.nil_append]
        simp only [parseVal, e]
      | map kvs =>
        have hx : mapSize kvs ≤ f := by simp [ysize] at h; omega
        have e := ihf.2.2 kvs rest hx
        simp only [dumpYaml, List.cons_append, List.append_assoc, List.singleton_append,
          List.nil_append]
        simp only [parseVal, e]
    · intro xs rest h
      cases xs with
      | nil => rfl
      | cons x xs' =>
        have h1 : ysize x ≤ f := by
          have := seqSize_pos xs'; simp [seqSize] at h; omega
        have h2 : seqSize xs' ≤ f := by
          have := ysize_pos x; simp [seqSize] at h; omega
        have e1 := ihf.1 x (dumpSeq xs' ++ Tok.seqEnd :: rest) h1
        have e2 := ihf.2.1 xs' rest h2
        simp only [dumpSeq, List.cons_append, List.append_assoc]
        simp only [parseSeqItems, e1, e2]
    · intro kvs rest h
      cases kvs with
      | mnil => rfl
      | mcons k v kvs' =>
        have h1 : ysize v ≤ f := by
          have := mapSize_pos kvs'; simp [mapSize] at h; omega
        have h2 : mapSize kvs' ≤ f := by
          have := ysize_pos v; simp [mapSize] at h; omega
        have e1 := ihf.1 v (dumpMap kvs' ++ Tok.mapEnd :: rest) h1
        have e2 := ihf.2.2 kvs' rest h2
        simp only [dumpMap, List.cons_append, List.append_assoc]
        simp only [parseMapItems, e1, e2]

mutual

theorem ysize_le_dumpLen : (v : Yaml) → ysize v ≤ (dumpYaml v).length
  | .str s => by simp [ysize, dumpYaml]
  | .int n => by simp [ysize, dumpYaml]
  | .arr xs => by
    have h := seqSize_le_dumpLen xs
    simp [ysize, dumpYaml]; omega
  | .map kvs => by
    have h := mapSize_le_dumpLen kvs
    simp [ysize, dumpYaml]; omega

theorem seqSize_le_dumpLen : (xs : YamlSeq) → seqSize xs ≤ (dumpSeq xs).length + 1
  | .nil => by simp [seqSize, dumpSeq]
  | .cons x xs => by
    have h1 := ysize_le_dumpLen x
    have h2 := seqSize_le_dumpLen xs
    simp [seqSize, dumpSeq]; omega

theorem mapSize_le_dumpLen : (kvs : YamlMap) → mapSize kvs ≤ (dumpMap kvs).length + 1
  | .mnil => by simp [mapSize, dumpMap]
  | .mcons k v rest => by
    have h1 := ysize_le_dumpLen v
    have h2 := mapSize_le_dumpLen rest
    simp [mapSize, dumpMap]; omega

end

/-- `yaml.safe_load` succeeds on any serialized document and returns the
document serialized. -/
theorem yaml_safe_load_dump (v : Yaml) : yaml_safe_load (dumpYaml v) = .ok v := by
  have h : ysize v ≤ (dumpYaml v).length + 1 :=
    le_trans (ysize_le_dumpLen v) (Nat.le_succ _)
  have e := (parse_dump_ok ((dumpYaml v).length + 1)).1 v [] h
  rw [List.append_nil] at e
  simp [yaml_safe_load, e]

theorem validate_yaml_dump (y : Yaml) : _validate_yaml (dumpYaml y) = .ok true := by
  simp [_validate_yaml, yaml_safe_load_dump]

/-- C2: for each of the three template kinds and any namespace, running
`generate` and then `_validate_yaml` on the freshly generated document
succeeds: the produced serialized document always parses back as
well-formed structured data, so the build-then-parse round trip never
fails. -/
theorem generate_validate_roundtrip :
    ∀ (kind : TemplateKind) (ns : String),
      ∃ doc, generate kind ns = .ok doc ∧ _validate_yaml doc = .ok true := by
  intro kind ns
  cases kind
  · exact ⟨dumpYaml (applicationTemplateDoc ns),
      by simp [generate, generate_application_template, validate_yaml_dump],
      validate_yaml_dump _⟩
  · exact ⟨dumpYaml (applicationsetTemplateDoc ns),
      by simp [generate, generate_applicationset_template, validate_yaml_dump],
      validate_yaml_dump _⟩
  · exact ⟨dumpYaml (infrastructureTemplateDoc ns),
      by simp [generate, generate_infrastructure_template, validate_yaml_dump],
      validate_yaml_dump _⟩

/-- C3: in every document produced by the generator, for all three kinds,
every step template carries a `retryStrategy` with a finite (numeric)
attempt limit, and every step whose script performs the non-idempotent
`kubectl apply -f /tmp/...` of a built manifest additionally carries a
capped exponential backoff (initial duration, factor, maximum duration);
the second conjunct counts the step templates, so the property is not
vacuous. -/
theorem step_retry_policy :
    ∀ (kind : TemplateKind) (ns : String),
      (stepTemplates (templateDoc kind ns)).all (fun t =>
        hasFiniteRetryLimit t &&
          (!callsNonIdempotentApply (scriptSource t) || hasCappedBackoff t)) = true ∧
      (stepTemplates (templateDoc kind ns)).length = numStepTemplates kind := by
  intro kind ns
  cases kind <;> refine ⟨?_, ?_⟩ <;> rfl

/- ## ParameterBinder theorems -/

theorem collectParamViolations_eq (provided : List (String × String)) (required : List String) :
    collectParamViolations provided required =
      (required.filter (fun p => (pyDictGet provided p).isNone),
       required.filter (fun p =>
         match pyDictGet provided p with
         | some v => v == "" || pyStrip v == ""
         | none => false)) := by
  induction required with
  | nil => rfl
  | cons p rest ih =>
    simp only [collectParamViolations, ih, List.filter_cons]
    cases h : pyDictGet provided p with
    | none => simp [h]
    | some v =>
      by_cases hv : (v == "" || pyStrip v == "") = true
      · simp [h, hv]
      · simp [h, hv]

theorem blank_cond (v : String) : (v == "" || pyStrip v == "") = (pyStrip v == "") := by
  by_cases h : v = ""
  · subst h; rfl
  · have : (v == "") = false := by simpa using h
    simp [this]

/-- C1: `validate_parameters` either succeeds, or fails with a single
`ValidationError` whose message names every required name absent from
`provided` (as missing) and every required name present but blank after
trimming (as empty) — the full filtered lists, so it never short-circuits
on the first violation; and on `["a","b"]` against `{"a": "", "c": "x"}`
it fails naming both `a` empty and `b` missing in one failure. -/
theorem validate_parameters_collects_all :
    (∀ (required : List String) (provided : List (String × String)),
      validate_parameters required provided =
        (let missing := required.filter (fun p => (pyDictGet provided p).isNone)
         let empty := required.filter (fun p =>
           match pyDictGet provided p with
           | some v => pyStrip v == ""
           | none => false)
         if missing.isEmpty && empty.isEmpty then .ok true
         else .error ⟨pyJoin ". "
           ((if missing.isEmpty then [] else
              ["Missing required parameters: " ++ pyJoin ", " missing]) ++
            (if empty.isEmpty then [] else
              ["Empty required parameters: " ++ pyJoin ", " empty])), none⟩))
    ∧ validate_parameters ["a", "b"] [("a", ""), ("c", "x")] =
        .error ⟨"Missing required parameters: b. Empty required parameters: a", none⟩ := by
  constructor
  · intro required provided
    have hfilter : required.filter (fun p =>
        match pyDictGet provided p with
        | some v => v == "" || pyStrip v == ""
        | none => false) =
      required.filter (fun p =>
        match pyDictGet provided p with
        | some v => pyStrip v == ""
        | none => false) := by
      apply List.filter_congr
      intro p _
      cases pyDictGet provided p with
      | none => rfl
      | some v => exact blank_cond v
    simp only [validate_parameters, collectParamViolations_eq, hfilter]
  · rfl

/- ## StatusTracker theorems -/

/-- C4: a node whose `startedAt` (resp. `finishedAt`) string cannot be
parsed as a timestamp is returned with that timestamp field absent and
every other field decoded as usual, and the fetch of the whole snapshot
still returns a status instead of failing. -/
theorem fetch_degrades_bad_timestamps :
    (∀ (nspace wn : String) (w : RawWorkflow) (i : Nat) (nid : String) (nd : RawNode) (s : String),
      (w.status.getD emptyRawStatus).nodes[i]? = some (nid, nd) →
      nd.startedAt = some s → s ≠ "" →
      fromisoformat (pyReplace s "Z" "+00:00") = none →
      ∃ st, get_workflow_status nspace wn (.ok w) = .ok st ∧
        st.nodes[i]? = some
          { name := nd.name.getD nid
            display_name := nd.displayName.getD (nd.name.getD nid)
            type := nd.type.getD "Unknown"
            phase := nd.phase.getD "Unknown"
            message := nd.message.getD ""
            started_at := none
            finished_at := parseOptTimestamp nd.finishedAt }) ∧
    (∀ (nspace wn : String) (w : RawWorkflow) (i : Nat) (nid : String) (nd : RawNode) (s : String),
      (w.status.getD emptyRawStatus).nodes[i]? = some (nid, nd) →
      nd.finishedAt = some s → s ≠ "" →
      fromisoformat (pyReplace s "Z" "+00:00") = none →
      ∃ st, get_workflow_status nspace wn (.ok w) = .ok st ∧
        st.nodes[i]? = some
          { name := nd.name.getD nid
            display_name := nd.displayName.getD (nd.name.getD nid)
            type := nd.type.getD "Unknown"
            phase := nd.phase.getD "Unknown"
            message := nd.message.getD ""
            started_at := parseOptTimestamp nd.startedAt
            finished_at := none }) := by
  constructor <;>
  · intro nspace wn w i nid nd s hnode hts hne hbad
    have hs : (s == "") = false := beq_eq_false_iff_ne.mpr hne
    refine ⟨_, rfl, ?_⟩
    simp only [get_workflow_status, List.getElem?_map, hnode, Option.map_some']
    simp [decodeNode, parseOptTimestamp, hts, hs, hbad]

/-- C4 witness: the concrete node with `startedAt = "not-a-date"`. -/
theorem fetch_degrades_bad_timestamps_witness :
    ∃ st, get_workflow_status "argo" "wf-1" (.ok c4Workflow) = .ok st ∧
      st.nodes[0]? = some
        { name := "wf-1.step-a", display_name := "step-a", type := "Pod"
          phase := "Running", message := "ok", started_at := none
          finished_at := parseOptTimestamp (some "2021-01-02T03:04:05Z") } := by
  exact fetch_degrades_bad_timestamps.1 "argo" "wf-1" c4Workflow 0 "node-1" c4Node
    "not-a-date" (by rfl) (by rfl) (by decide) (by rfl)

/-- C10: a workflow object whose status section is absent or lacks the
phase, progress, message or nodes fields still decodes without failing,
to a snapshot with phase `"Unknown"`, progress `"0/0"`, empty message and
an empty node list — and `"Unknown"` is outside the five-value phase
vocabulary, so the returned phase is not always a member of it. -/
theorem fetch_defaults_unknown :
    (∀ (nspace wn : String) (w : RawWorkflow),
      ∃ st, get_workflow_status nspace wn (.ok w) = .ok st ∧
        ((w.status.getD emptyRawStatus).phase = none → st.phase = "Unknown") ∧
        ((w.status.getD emptyRawStatus).progress = none → st.progress = "0/0") ∧
        ((w.status.getD emptyRawStatus).message = none → st.message = "") ∧
        ((w.status.getD emptyRawStatus).nodes = [] → st.nodes = [])) ∧
    (∃ st, get_workflow_status "argo" "wf-0" (.ok ⟨none, none⟩) = .ok st ∧
      st.phase ∉ specPhases) := by
  constructor
  · intro nspace wn w
    refine ⟨_, rfl, ?_, ?_, ?_, ?_⟩ <;> intro h <;> simp [get_workflow_status, h]
  · exact ⟨_, rfl, by decide⟩

/-- C10 witness: the fully-absent status object. -/
theorem fetch_defaults_unknown_witness :
    ∃ st, get_workflow_status "argo" "wf-0b" (.ok ⟨none, none⟩) = .ok st ∧
      st.phase = "Unknown" ∧ st.progress = "0/0" ∧ st.message = "" ∧ st.nodes = [] := by
  obtain ⟨st, he, h1, h2, h3, h4⟩ := fetch_defaults_unknown.1 "argo" "wf-0b" ⟨none, none⟩
  exact ⟨st, he, h1 rfl, h2 rfl, h3 rfl, h4 rfl⟩

/- ## LogAggregator theorems -/

theorem pyJoin_infix (sep x : String) :
    ∀ l : List String, x ∈ l → ∃ a b, pyJoin sep l = a ++ x ++ b := by
  intro l
  induction l with
  | nil => intro h; cases h
  | cons y ys ih =>
    intro h
    rcases List.mem_cons.mp h with rfl | hmem
    · cases ys with
      | nil =>
        exact ⟨"", "", by simp [pyJoin, String.empty_append, String.append_empty]⟩
      | cons z zs =>
        refine ⟨"", sep ++ pyJoin sep (z :: zs), ?_⟩
        simp [pyJoin, String.empty_append, String.append_assoc]
    · obtain ⟨a, b, hab⟩ := ih hmem
      cases ys with
      | nil => cases hmem
      | cons z zs =>
        refine ⟨y ++ sep ++ a, b, ?_⟩
        simp [pyJoin, hab, String.append_assoc]

/-- C5: whenever the resolved target units include one whose log lookup
fails with status 404 and another whose lookup succeeds,
`get_workflow_logs` returns text containing the succeeding unit's log
content plus the labeled not-found placeholder line for the failing unit;
the per-unit failure never makes the aggregate call fail. -/
theorem fetch_logs_partial_failure :
    ∀ (nspace wn : String) (w : RawWorkflow)
      (podLogs : String → Except ApiException String) (step : Option String)
      (p1 p2 : String × RawNode) (err : ApiException) (content : String),
      p1 ∈ selectLogNodes (w.status.getD emptyRawStatus).nodes step →
      p2 ∈ selectLogNodes (w.status.getD emptyRawStatus).nodes step →
      podLogs (podNameOf p1) = .error err → err.status = 404 →
      podLogs (podNameOf p2) = .ok content →
      ∃ text, get_workflow_logs nspace wn (.ok w) podLogs step = .ok text ∧
        (∃ a b, text = a ++ ("=== Step " ++ displayNameOf p1 ++
          ": Pod not found or not started yet ===") ++ b) ∧
        (∃ a b, text = a ++ content ++ b) := by
  intro nspace wn w podLogs step p1 p2 err content h1 h2 herr h404 hok
  have hph : ("=== Step " ++ displayNameOf p1 ++ ": Pod not found or not started yet ===") ∈
      (selectLogNodes (w.status.getD emptyRawStatus).nodes step).flatMap (logBlock podLogs) := by
    apply List.mem_flatMap.mpr
    refine ⟨p1, h1, ?_⟩
    simp [logBlock, herr, h404]
  have hct : content ∈
      (selectLogNodes (w.status.getD emptyRawStatus).nodes step).flatMap (logBlock podLogs) := by
    apply List.mem_flatMap.mpr
    refine ⟨p2, h2, ?_⟩
    simp [logBlock, hok]
  have hne : ((selectLogNodes (w.status.getD emptyRawStatus).nodes step).flatMap
      (logBlock podLogs)).isEmpty = false := by
    have := List.ne_nil_of_mem hph
    simpa [List.isEmpty_iff] using this
  refine ⟨pyJoin "\n" ((selectLogNodes (w.status.getD emptyRawStatus).nodes step).flatMap
    (logBlock podLogs)), ?_, ?_, ?_⟩
  · simp [get_workflow_logs, hne]
  · exact pyJoin_infix _ _ _ hph
  · exact pyJoin_infix _ _ _ hct

/-- C5 witness: two pod nodes, the first lookup raising not-found, the
second succeeding. -/
theorem fetch_logs_partial_failure_witness :
    ∃ text, get_workflow_logs "argo" "wf-2" (.ok c5Workflow) c5PodLogs none = .ok text ∧
      (∃ a b, text = a ++ "=== Step alpha: Pod not found or not started yet ===" ++ b) ∧
      (∃ a b, text = a ++ "beta log line" ++ b) := by
  exact fetch_logs_partial_failure "argo" "wf-2" c5Workflow c5PodLogs none
    ("n1", c5NodeA) ("n2", c5NodeB) ⟨404, "Not Found"⟩ "beta log line"
    (by decide) (by decide) (by rfl) rfl (by rfl)

/- ## Unit-resolution theorems -/

/-- C8 counterexample: with the step filter "build", the resolved set
contains an aggregate `Steps` node, so it is not restricted to pod-like
execution units. -/
theorem resolve_units_pod_restriction_fails :
    ¬ (∀ p ∈ selectLogNodes c8Nodes (some "build"), p.2.type = some "Pod") := by
  decide

/-- C8 amended: without a step filter the resolved units are the nodes of
the instance restricted to Pod type (for streaming, further restricted to
Running/Pending); with a step filter the set is narrowed to the nodes
matched by id or display name, with no pod-type restriction. -/
theorem resolve_units_characterization :
    (∀ (nodes : List (String × RawNode)) (p : String × RawNode),
      p ∈ selectLogNodes nodes none → p ∈ nodes ∧ p.2.type = some "Pod") ∧
    (∀ (nodes : List (String × RawNode)) (st : String) (p : String × RawNode),
      p ∈ selectLogNodes nodes (some st) →
      p ∈ nodes ∧ (p.2.displayName = some st ∨ p.2.name = some st)) ∧
    (∀ (nodes : List (String × RawNode)) (p : String × RawNode),
      p ∈ selectStreamNodes nodes none →
      p ∈ nodes ∧ p.2.type = some "Pod" ∧
        (p.2.phase = some "Running" ∨ p.2.phase = some "Pending")) ∧
    (∀ (nodes : List (String × RawNode)) (st : String) (p : String × RawNode),
      p ∈ selectStreamNodes nodes (some st) →
      p ∈ nodes ∧ (p.2.displayName = some st ∨ p.2.name = some st)) := by
  refine ⟨?_, ?_, ?_, ?_⟩
  · intro nodes p hp
    have h := List.mem_filter.mp hp
    exact ⟨h.1, by simpa using h.2⟩
  · intro nodes st p hp
    have h := List.mem_filter.mp hp
    exact ⟨h.1, by simpa using h.2⟩
  · intro nodes p hp
    have h := List.mem_filter.mp hp
    refine ⟨h.1, ?_⟩
    simpa [and_assoc] using h.2
  · intro nodes st p hp
    have h := List.mem_filter.mp hp
    exact ⟨h.1, by simpa using h.2⟩

/-- C8 amended witness: a running pod node resolved without a filter. -/
theorem resolve_units_characterization_witness :
    (("p1", (⟨some "wf.main", some "main", some "Pod", some "Running",
        none, none, none, some "pod-p1"⟩ : RawNode)) ∈ c8PodNodes) ∧
    (("p1", (⟨some "wf.main", some "main", some "Pod", some "Running",
        none, none, none, some "pod-p1"⟩ : RawNode)) : String × RawNode).2.type = some "Pod" := by
  exact resolve_units_characterization.1 c8PodNodes _ (by decide)

/-- C9: the unfiltered streaming selection picks exactly the Pod-type
nodes in phase Running or Pending, whereas the unfiltered fetch selection
picks every Pod-type node regardless of phase; consequently, on an
instance all of whose pod nodes are terminal, an unfiltered stream yields
no per-unit output at all. -/
theorem stream_selects_only_active_pods :
    (∀ (nodes : List (String × RawNode)) (p : String × RawNode),
      p ∈ selectStreamNodes nodes none ↔
        p ∈ nodes ∧ p.2.type = some "Pod" ∧
          (p.2.phase = some "Running" ∨ p.2.phase = some "Pending")) ∧
    (∀ (nodes : List (String × RawNode)) (p : String × RawNode),
      p ∈ selectLogNodes nodes none ↔ p ∈ nodes ∧ p.2.type = some "Pod") ∧
    (∀ (nspace wn : String) (w : RawWorkflow)
        (podLogStream : String → Except ApiException (List String)),
      (∀ p ∈ (w.status.getD emptyRawStatus).nodes, p.2.type = some "Pod" →
        p.2.phase = some "Succeeded" ∨ p.2.phase = some "Failed" ∨ p.2.phase = some "Error") →
      stream_workflow_logs nspace wn (.ok w) podLogStream none = .ok []) := by
  refine ⟨?_, ?_, ?_⟩
  · intro nodes p
    simp [selectStreamNodes, List.mem_filter, and_assoc]
  · intro nodes p
    simp [selectLogNodes, List.mem_filter]
  · intro nspace wn w podLogStream hterm
    have hsel : selectStreamNodes (w.status.getD emptyRawStatus).nodes none = [] := by
      simp only [selectStreamNodes]
      rw [List.filter_eq_nil_iff]
      intro p hp
      by_cases htp : p.2.type = some "Pod"
      · rcases hterm p hp htp with h | h | h <;> simp [htp, h]
      · simp [htp]
    simp [stream_workflow_logs, hsel]

/-- C9 witness: all pod nodes terminal, unfiltered stream yields nothing. -/
theorem stream_selects_only_active_pods_witness :
    stream_workflow_logs "argo" "wf-4" (.ok c9Workflow) c9Stream none = .ok [] := by
  exact stream_selects_only_active_pods.2.2 "argo" "wf-4" c9Workflow c9Stream (by decide)

/- ## LifecycleManager theorems -/

theorem deleteBatchLoop_counts (deleteOne : String → Except ApiException Bool) :
    ∀ (wfs : List String) (d f : Nat),
      deleteBatchLoop deleteOne d f wfs =
        (d + (wfs.filter (fun n => (deleteOne n).isOk)).length,
         f + (wfs.filter (fun n => !(deleteOne n).isOk)).length) := by
  intro wfs
  induction wfs with
  | nil => intro d f; simp [deleteBatchLoop]
  | cons name rest ih =>
    intro d f
    cases h : deleteOne name with
    | ok v =>
      have hb : (deleteOne name).isOk = true := by rw [h]; rfl
      simp [deleteBatchLoop, h, ih, hb, List.filter_cons, Except.isOk, Except.toBool]
      omega
    | error e =>
      have hb : (deleteOne name).isOk = false := by rw [h]; rfl
      simp [deleteBatchLoop, h, ih, hb, List.filter_cons, Except.isOk, Except.toBool]
      omega

theorem filter_length_partition (p : String → Bool) (l : List String) :
    (l.filter p).length + (l.filter (fun n => !p n)).length = l.length := by
  induction l with
  | nil => simp
  | cons x xs ih => by_cases h : p x <;> simp [List.filter_cons, h] <;> omega

/-- C6: the batch-deletion loop deletes each matched instance
independently — the deleted count is the number of instances whose delete
succeeded and the failed count the number whose delete failed, the two
always summing to the batch size, so one per-item failure never aborts
the batch and neither count is dropped; over 3 instances where the second
delete fails it returns deleted 2, failed 1. -/
theorem delete_batch_counts :
    (∀ (deleteOne : String → Except ApiException Bool) (wfs : List String),
      (deleteBatch deleteOne wfs).1 = (wfs.filter (fun n => (deleteOne n).isOk)).length ∧
      (deleteBatch deleteOne wfs).2 = (wfs.filter (fun n => !(deleteOne n).isOk)).length ∧
      (deleteBatch deleteOne wfs).1 + (deleteBatch deleteOne wfs).2 = wfs.length) ∧
    deleteBatch c6DeleteOne ["wf-a", "wf-b", "wf-c"] = (2, 1) := by
  constructor
  · intro deleteOne wfs
    have h := deleteBatchLoop_counts deleteOne wfs 0 0
    have hlen := filter_length_partition (fun n => (deleteOne n).isOk) wfs
    refine ⟨?_, ?_, ?_⟩ <;> simp [deleteBatch, h]
    omega
  · rfl

/- ## Watch-loop theorems -/

/-- C7: the watch loop stops as soon as the latest fetched snapshot's
phase is terminal: a terminal first fetch yields that single snapshot and
nothing further; any displayed snapshot that has a successor in the trace
is non-terminal; and the `j`-th displayed snapshot is exactly the result
of the `j`-th re-fetch.  The fuel argument models the caller's
cancellation (Ctrl+C), the only other way out of the `while True` loop. -/
theorem watch_stops_on_terminal :
    (∀ (fetchStatus : Nat → WorkflowStatus) (i fuel : Nat),
      (fetchStatus i).phase ∈ terminalPhases →
      watchStatuses fetchStatus i (fuel + 1) = [fetchStatus i]) ∧
    (∀ (fetchStatus : Nat → WorkflowStatus) (fuel i j : Nat) (s s' : WorkflowStatus),
      (watchStatuses fetchStatus i fuel)[j]? = some s →
      (watchStatuses fetchStatus i fuel)[j + 1]? = some s' →
      s.phase ∉ terminalPhases) ∧
    (∀ (fetchStatus : Nat → WorkflowStatus) (fuel i j : Nat) (s : WorkflowStatus),
      (watchStatuses fetchStatus i fuel)[j]? = some s →
      s = fetchStatus (i + j)) := by
  refine ⟨?_, ?_, ?_⟩
  · intro fetchStatus i fuel h
    have hc : terminalPhases.contains (fetchStatus i).phase = true :=
      List.elem_eq_true_of_mem h
    rw [watchStatuses, if_pos hc]
  · intro fetchStatus fuel
    induction fuel with
    | zero => intro i j s s' h1 h2; simp [watchStatuses] at h1
    | succ f ih =>
      intro i j s s' h1 h2
      by_cases hc : terminalPhases.contains (fetchStatus i).phase = true
      · rw [watchStatuses, if_pos hc] at h2
        rcases j with _ | j <;> simp at h2
      · rw [watchStatuses, if_neg hc] at h1 h2
        rcases j with _ | j
        · simp at h1
          subst h1
          intro hmem
          exact hc (List.elem_eq_true_of_mem hmem)
        · simp at h1 h2
          exact ih (i + 1) j s s' h1 h2
  · intro fetchStatus fuel
    induction fuel with
    | zero => intro i j s h1; simp [watchStatuses] at h1
    | succ f ih =>
      intro i j s h1
      by_cases hc : terminalPhases.contains (fetchStatus i).phase = true
      · rw [watchStatuses, if_pos hc] at h1
        rcases j with _ | j <;> simp at h1
        simp [h1]
      · rw [watchStatuses, if_neg hc] at h1
        rcases j with _ | j
        · simp at h1; simp [h1]
        · simp at h1
          have := ih (i + 1) j s h1
          rw [this]
          congr 1
          omega

/-- C7 witness: a fetch sequence that is terminal immediately. -/
theorem watch_stops_on_terminal_witness :
    watchStatuses c7Fetch 0 5 = [c7Fetch 0] := by
  exact watch_stops_on_terminal.1 c7Fetch 0 4 (by decide)
